import Mathlib

/-!
Verification development for the JhdzAI live-conversation front-end.

The embedding below translates the `LiveConversation` component
(`stopConversation`, `handleMessage`, `startConversation`,
`toggleConversation`), the inline PCM quantization loop of
`onaudioprocess`, and the chat service (`getChatResponse`,
`Chat.handleSendMessage`) into pure Lean functions over an explicit
component state.

Modelling conventions:
  * React `useRef` cells become fields of `LiveState`; a ref holding a
    browser object (session promise, media stream, audio nodes, audio
    contexts) is modelled as `Option Nat`, the `Nat` being an opaque
    handle identity.
  * React `useState` variables become fields of `LiveState`.  A state
    setter called with a functional updater (`setX (prev => ...)`) reads
    the current store value; a setter called with a plain value writes
    that value.  A *read* of a state variable inside a closure yields the
    value captured when the closure was created: `handleMessage` is
    registered once, at `startConversation` time, so the values of
    `userTranscript` / `aiTranscript` it reads are frozen at that render.
    They are passed explicitly as the `cap` argument.
  * Release side effects (`session.close()`, `track.stop()`,
    `source.stop()`) are recorded in append-only log fields so that
    "released exactly once" is observable.
  * Times and PCM sample values are rationals.  This is exact for the
    arithmetic the code performs: multiplication and division by the
    power of two 32768 are exact in binary floating point, and the
    JavaScript `Int16Array` element conversion (truncate toward zero,
    then reduce modulo 2^16 with signed reinterpretation) is integer
    arithmetic.
  * Asynchronous callbacks are modelled as atomic state transformers;
    incoming fragments are processed in arrival order, matching the
    single-threaded event dispatch of the UI thread.
-/

/-- One scheduled output chunk: an `AudioBufferSourceNode` that was
`start`ed at `start` and plays for `duration` seconds. -/
structure Chunk where
  id : Nat
  start : ℚ
  duration : ℚ
deriving DecidableEq, Repr

/-- An incoming `LiveServerMessage`, reduced to the fields
`handleMessage` inspects: `serverContent.outputTranscription.text`,
`serverContent.inputTranscription.text`, `serverContent.turnComplete`,
`serverContent.modelTurn.parts[0].inlineData.data` (carried here as the
already base64-decoded byte list; the empty payload corresponds to the
falsy empty string) and `serverContent.interrupted`. -/
structure ServerMessage where
  outputTranscriptionText : Option String
  inputTranscriptionText : Option String
  turnComplete : Bool
  audioData : Option (List Nat)
  interrupted : Bool
deriving DecidableEq, Repr

/-- The mutable state of the `LiveConversation` component: its refs, its
React state variables, and append-only logs of the release side effects
performed on browser resources. -/
structure LiveState where
  sessionRef : Option Nat
  streamRef : Option Nat
  scriptProcessorRef : Option Nat
  mediaStreamSourceRef : Option Nat
  inputAudioContextRef : Option Nat
  outputAudioContextRef : Option Nat
  nextStartTime : ℚ
  audioSources : List Chunk
  isActive : Bool
  isConnecting : Bool
  errorMsg : Option String
  userTranscript : String
  aiTranscript : String
  transcriptHistory : List (String × String)
  closedSessions : List Nat
  stoppedStreams : List Nat
  stoppedSources : List Nat
deriving DecidableEq, Repr

/-- `stopConversation`: closes the session, stops the capture tracks,
disconnects the processing nodes, closes both audio contexts, stops and
clears every scheduled output chunk, resets the playback cursor and
drops back to the inactive, non-connecting state. -/
def stopConversation (s : LiveState) : LiveState :=
  let s1 := match s.sessionRef with
    | some sid =>
        { s with sessionRef := none, closedSessions := s.closedSessions ++ [sid] }
    | none => s
  let s2 := match s1.streamRef with
    | some st =>
        { s1 with streamRef := none, stoppedStreams := s1.stoppedStreams ++ [st] }
    | none => s1
  let s3 := if s2.scriptProcessorRef.isSome then { s2 with scriptProcessorRef := none } else s2
  let s4 := if s3.mediaStreamSourceRef.isSome then { s3 with mediaStreamSourceRef := none } else s3
  let s5 := if s4.inputAudioContextRef.isSome then { s4 with inputAudioContextRef := none } else s4
  let s6 := if s5.outputAudioContextRef.isSome then { s5 with outputAudioContextRef := none } else s5
  { s6 with
      stoppedSources := s6.stoppedSources ++ s6.audioSources.map Chunk.id
      audioSources := []
      nextStartTime := 0
      isActive := false
      isConnecting := false }

/-- JavaScript `Int16Array` element conversion: reduce modulo 2^16 and
reinterpret as a signed 16-bit value. -/
def toInt16 (n : Int) : Int :=
  if 32768 ≤ n % 65536 then n % 65536 - 65536 else n % 65536

/-- JavaScript number-to-integer truncation (round toward zero), as
performed before an `Int16Array` store. -/
def truncQ (x : ℚ) : Int :=
  if 0 ≤ x then ⌊x⌋ else ⌈x⌉

/-- The quantization performed per sample by the `onaudioprocess`
handler in `startConversation`: `int16[i] = inputData[i] * 32768`. -/
def quantizeSample (x : ℚ) : Int :=
  toInt16 (truncQ (x * 32768))

/-- The two little-endian bytes of a 16-bit value, as laid out by
`new Uint8Array(int16.buffer)`. -/
def toBytesLE (v : Int) : List Nat :=
  [(v % 65536).toNat % 256, (v % 65536).toNat / 256]

/-- The byte-level encoding of a whole captured frame: each sample is
quantized to 16 bits and stored little-endian, samples in order. -/
def encodeFrame : List ℚ → List Nat
  | [] => []
  | x :: rest => toBytesLE (quantizeSample x) ++ encodeFrame rest

/-- Reassemble a signed 16-bit value from two little-endian bytes. -/
def int16OfBytes (b0 b1 : Nat) : Int :=
  if b0 % 256 + 256 * (b1 % 256) < 32768 then ((b0 % 256 + 256 * (b1 % 256) : Nat) : Int)
  else ((b0 % 256 + 256 * (b1 % 256) : Nat) : Int) - 65536

/-- Interpret a byte list as a sequence of little-endian 16-bit PCM
samples scaled back to `[-1, 1)` floats. -/
def samplesOfBytes : List Nat → List ℚ
  | b0 :: b1 :: rest => ((int16OfBytes b0 b1 : Int) : ℚ) / 32768 :: samplesOfBytes rest
  | _ => []

/-- A decoded playable buffer: its sample values and its duration in
seconds (`frameCount / sampleRate`). -/
structure AudioChunkBuffer where
  samples : List ℚ
  duration : ℚ
deriving DecidableEq, Repr

/-- Modelled from the spec: `decodeAudioData` lives in
`utils/audioUtils`, which is not part of the provided sources; §4.1 of
the spec describes it as `decodeFragment(wireBytes, sampleRate,
channels) -> playableBuffer`, the inverse of the 16-bit quantization,
failing with a `DecodeError` if the byte length is not a whole multiple
of the sample width.  The frame count is `length / 2 / channels` and the
duration is `frameCount / sampleRate`. -/
def decodeAudioData (bytes : List Nat) (sampleRate : ℚ) (channels : Nat) :
    Except String AudioChunkBuffer :=
  if bytes.length % 2 ≠ 0 then
    Except.error "DecodeError"
  else
    Except.ok ⟨samplesOfBytes bytes, ((bytes.length / 2 / channels : Nat) : ℚ) / sampleRate⟩

/-- The first half of `handleMessage`: append the output-transcription
delta to `aiTranscript` and the input-transcription delta to
`userTranscript` (both via functional updaters, hence against the
current store), then, on `turnComplete`, append the *captured* pair
`cap = (userTranscript, aiTranscript)` — the values frozen in the
closure registered at `startConversation` time — to the history and
reset both live transcripts to the empty string. -/
def applyTranscripts (cap : String × String) (m : ServerMessage) (s : LiveState) : LiveState :=
  let s1 := match m.outputTranscriptionText with
    | some t => { s with aiTranscript := s.aiTranscript ++ t }
    | none => s
  let s2 := match m.inputTranscriptionText with
    | some t => { s1 with userTranscript := s1.userTranscript ++ t }
    | none => s1
  if m.turnComplete then
    { s2 with
        transcriptHistory := s2.transcriptHistory ++ [cap]
        userTranscript := ""
        aiTranscript := "" }
  else s2

/-- The `interrupted` tail of `handleMessage`: stop every source in the
active set, delete it from the set, and reset the scheduling cursor to
zero. -/
def applyInterrupted (m : ServerMessage) (s : LiveState) : LiveState :=
  if m.interrupted then
    { s with
        stoppedSources := s.stoppedSources ++ s.audioSources.map Chunk.id
        audioSources := []
        nextStartTime := 0 }
  else s

/-- The audio block of `handleMessage` followed by the `interrupted`
block.  The audio block runs only when the payload is a non-empty
(truthy) string and the output audio context ref is live; it first bumps
the cursor to `max nextStartTime currentTime`, then awaits
`decodeAudioData`.  A decode failure rejects the async handler, so the
remainder of the handler — including the `interrupted` block — is
skipped for that message.  On success a source is created, started at
the cursor, the cursor advances by the buffer duration and the source
joins the active set. -/
def audioPhase (now : ℚ) (srcId : Nat) (m : ServerMessage) (s : LiveState) : LiveState :=
  match m.audioData, s.outputAudioContextRef with
  | some bytes, some _ =>
      if bytes.isEmpty then
        applyInterrupted m s
      else
        let s4 := { s with nextStartTime := max s.nextStartTime now }
        match decodeAudioData bytes 24000 1 with
        | Except.error _ => s4
        | Except.ok buf =>
            let c : Chunk := ⟨srcId, s4.nextStartTime, buf.duration⟩
            applyInterrupted m
              { s4 with
                  audioSources := s4.audioSources ++ [c]
                  nextStartTime := s4.nextStartTime + buf.duration }
  | _, _ => applyInterrupted m s

/-- `handleMessage`, as registered with the live session: `cap` is the
pair of transcript values captured by the closure at registration time,
`now` is `outputAudioContext.currentTime` at processing time and `srcId`
identifies the buffer source created for an audio payload. -/
def handleMessage (cap : String × String) (now : ℚ) (srcId : Nat)
    (m : ServerMessage) (s : LiveState) : LiveState :=
  audioPhase now srcId m (applyTranscripts cap m s)

/-- The success path of `startConversation`: set connecting, clear the
error text, then store the freshly acquired microphone stream, the two
audio contexts and the session promise into their refs.  The previous
contents of those refs are overwritten without any release call. -/
def startConversationSuccess (streamId inCtxId outCtxId sessId : Nat)
    (s : LiveState) : LiveState :=
  { s with
      isConnecting := true
      errorMsg := none
      streamRef := some streamId
      inputAudioContextRef := some inCtxId
      outputAudioContextRef := some outCtxId
      sessionRef := some sessId }

/-- The catch path of `startConversation` when `getUserMedia` rejects:
the error text is set and the connecting flag cleared; nothing else is
touched — in particular `stopConversation` is not invoked. -/
def startConversationMicDenied (s : LiveState) : LiveState :=
  { s with
      isConnecting := false
      errorMsg := some "Could not access microphone. Please grant permission and try again." }

/-- The `onopen` callback: if the stream or input context ref is gone it
returns immediately; otherwise it marks the session active, clears
connecting, and stores the media-stream source node and script
processor node. -/
def onOpenHandler (mssId spId : Nat) (s : LiveState) : LiveState :=
  if s.streamRef.isSome && s.inputAudioContextRef.isSome then
    { s with
        isActive := true
        isConnecting := false
        mediaStreamSourceRef := some mssId
        scriptProcessorRef := some spId }
  else s

/-- The `onerror` callback: surface "A connection error occurred." and
run `stopConversation`. -/
def onErrorHandler (s : LiveState) : LiveState :=
  stopConversation { s with errorMsg := some "A connection error occurred." }

/-- The `onclose` callback: run `stopConversation`; no status text is
written. -/
def onCloseHandler (s : LiveState) : LiveState :=
  stopConversation s

/-- `toggleConversation`: stop when active or connecting, otherwise
start (shown here with the success path of `startConversation`). -/
def toggleConversation (streamId inCtxId outCtxId sessId : Nat)
    (s : LiveState) : LiveState :=
  if s.isActive || s.isConnecting then stopConversation s
  else startConversationSuccess streamId inCtxId outCtxId sessId s

/-- The apology text returned by `getChatResponse` when the model
request fails. -/
def chatApologyText : String :=
  "I\x27m sorry, I encountered an error. Please try again."

/-- The text of the Chat panel\x27s own catch branch in
`handleSendMessage`. -/
def chatPanelErrorText : String :=
  "I\x27m having a little trouble thinking right now. Please try again later."

/-- `getChatResponse`, reduced to its control flow: throw if the client
could not be initialized (no API key); otherwise issue the model
request, returning its text and grounding chunks on success and the
fixed apology with no sources if the request throws. -/
def getChatResponse (clientInitialized : Bool)
    (modelResult : Except String (String × List String)) :
    Except String (String × List String) :=
  if clientInitialized then
    match modelResult with
    | Except.ok r => Except.ok r
    | Except.error _ => Except.ok (chatApologyText, [])
  else
    Except.error "GoogleGenAI not initialized"

/-- A rendered chat message: sender tag, text, citation sources. -/
structure ChatMsg where
  sender : String
  text : String
  sources : List String
deriving DecidableEq, Repr

/-- The tail of `Chat.handleSendMessage` after the await: on a resolved
`getChatResponse` the thinking placeholder (last element) is replaced by
an AI message with the returned text and sources; if the call rejected,
the catch branch replaces it with the panel\x27s own error message. -/
def handleChatOutcome (r : Except String (String × List String))
    (msgs : List ChatMsg) : List ChatMsg :=
  match r with
  | Except.ok (t, srcs) => msgs.dropLast ++ [⟨"ai", t, srcs⟩]
  | Except.error _ => msgs.dropLast ++ [⟨"ai", chatPanelErrorText, []⟩]

/-- A convenient fully-idle component state, as at first mount. -/
def initialLiveState : LiveState :=
  { sessionRef := none
    streamRef := none
    scriptProcessorRef := none
    mediaStreamSourceRef := none
    inputAudioContextRef := none
    outputAudioContextRef := none
    nextStartTime := 0
    audioSources := []
    isActive := false
    isConnecting := false
    errorMsg := none
    userTranscript := ""
    aiTranscript := ""
    transcriptHistory := []
    closedSessions := []
    stoppedStreams := []
    stoppedSources := [] }

/-- A representative freshly started, active session state: stream 1,
input context 2, output context 3, session 4, source node 5, script
processor 6. -/
def activeState : LiveState :=
  onOpenHandler 5 6 (startConversationSuccess 1 2 3 4 initialLiveState)

section Lemmas

/-- Normal form of `stopConversation`: every ref is cleared, the cursor
and flags reset, and each held resource is appended once to its release
log. -/
theorem stopConversation_eq (s : LiveState) :
    stopConversation s =
      { s with
          sessionRef := none
          streamRef := none
          scriptProcessorRef := none
          mediaStreamSourceRef := none
          inputAudioContextRef := none
          outputAudioContextRef := none
          nextStartTime := 0
          audioSources := []
          isActive := false
          isConnecting := false
          closedSessions := s.closedSessions ++ s.sessionRef.toList
          stoppedStreams := s.stoppedStreams ++ s.streamRef.toList
          stoppedSources := s.stoppedSources ++ s.audioSources.map Chunk.id } := by
  obtain ⟨sess, strm, sp, mss, inC, outC, nst, srcs, act, conn, err, ut, aT, th, cs, ss, so⟩ := s
  cases sess <;> cases strm <;> cases sp <;> cases mss <;> cases inC <;> cases outC <;>
    simp [stopConversation]

/-- Helper: append an optional transcript delta. -/
def appendOpt (base : String) (t : Option String) : String :=
  match t with
  | some u => base ++ u
  | none => base

/-- Normal form of the transcript phase of `handleMessage`. -/
theorem applyTranscripts_eq (cap : String × String) (m : ServerMessage) (s : LiveState) :
    applyTranscripts cap m s =
      { s with
          userTranscript :=
            if m.turnComplete then "" else appendOpt s.userTranscript m.inputTranscriptionText
          aiTranscript :=
            if m.turnComplete then "" else appendOpt s.aiTranscript m.outputTranscriptionText
          transcriptHistory :=
            if m.turnComplete then s.transcriptHistory ++ [cap] else s.transcriptHistory } := by
  obtain ⟨o, i, tc, a, intr⟩ := m
  cases o <;> cases i <;> cases tc <;> simp [applyTranscripts, appendOpt]

end Lemmas

section Scheduling

/-- Two chunks in playback order: the first ends no later than the
second starts. -/
def seqChunk (a b : Chunk) : Prop := a.start + a.duration ≤ b.start

instance : DecidableRel seqChunk := fun a b =>
  inferInstanceAs (Decidable (a.start + a.duration ≤ b.start))

/-- The scheduling invariant of the playback state: the active chunks
are pairwise sequential in order, and the cursor is at or past the end
of the last scheduled chunk. -/
def SchedInv (s : LiveState) : Prop :=
  List.Chain' seqChunk s.audioSources ∧
  ∀ c ∈ s.audioSources.getLast?, c.start + c.duration ≤ s.nextStartTime

instance (s : LiveState) : Decidable (SchedInv s) :=
  inferInstanceAs (Decidable (_ ∧ _))

/-- Normal form of the audio phase on a well-formed, non-empty audio
payload with a live output context and no interruption flag: the cursor
is first bumped to `max nextStartTime now`, the chunk starts there, and
the cursor advances by its duration. -/
theorem audioPhase_enqueue (now : ℚ) (srcId : Nat) (m : ServerMessage) (s : LiveState)
    (bytes : List Nat) (k : Nat)
    (haud : m.audioData = some bytes) (hctx : s.outputAudioContextRef = some k)
    (hne : bytes.isEmpty = false) (heven : bytes.length % 2 = 0)
    (hint : m.interrupted = false) :
    audioPhase now srcId m s =
      { s with
          audioSources :=
            s.audioSources ++
              [⟨srcId, max s.nextStartTime now, ((bytes.length / 2 : Nat) : ℚ) / 24000⟩]
          nextStartTime :=
            max s.nextStartTime now + ((bytes.length / 2 : Nat) : ℚ) / 24000 } := by
  unfold audioPhase
  rw [haud, hctx]
  simp only [hne, Bool.false_eq_true, if_false, decodeAudioData, heven]
  simp [applyInterrupted, hint]

/-- The audio phase leaves every non-playback field of the state
unchanged. -/
theorem audioPhase_frame (now : ℚ) (srcId : Nat) (m : ServerMessage) (s : LiveState) :
    (audioPhase now srcId m s).sessionRef = s.sessionRef ∧
    (audioPhase now srcId m s).streamRef = s.streamRef ∧
    (audioPhase now srcId m s).scriptProcessorRef = s.scriptProcessorRef ∧
    (audioPhase now srcId m s).mediaStreamSourceRef = s.mediaStreamSourceRef ∧
    (audioPhase now srcId m s).inputAudioContextRef = s.inputAudioContextRef ∧
    (audioPhase now srcId m s).outputAudioContextRef = s.outputAudioContextRef ∧
    (audioPhase now srcId m s).isActive = s.isActive ∧
    (audioPhase now srcId m s).isConnecting = s.isConnecting ∧
    (audioPhase now srcId m s).errorMsg = s.errorMsg ∧
    (audioPhase now srcId m s).userTranscript = s.userTranscript ∧
    (audioPhase now srcId m s).aiTranscript = s.aiTranscript ∧
    (audioPhase now srcId m s).transcriptHistory = s.transcriptHistory ∧
    (audioPhase now srcId m s).closedSessions = s.closedSessions ∧
    (audioPhase now srcId m s).stoppedStreams = s.stoppedStreams := by
  unfold audioPhase
  cases haud : m.audioData with
  | none =>
      cases hctx : s.outputAudioContextRef <;> simp [applyInterrupted] <;> split <;>
        simp [hctx]
  | some bytes =>
      cases hctx : s.outputAudioContextRef with
      | none => simp [applyInterrupted]; split <;> simp [hctx]
      | some k =>
          by_cases hne : bytes.isEmpty <;> simp [hne, applyInterrupted]
          · split <;> simp [hctx]
          · cases hdec : decodeAudioData bytes 24000 1 <;> simp
            split <;> simp [hctx]

end Scheduling

/-- Lifting `audioPhase_enqueue` through the transcript phase: on a
well-formed audio fragment, `handleMessage` appends exactly one chunk,
started at `max nextStartTime currentTime`, and advances the cursor to
its end. -/
theorem handleMessage_enqueue (cap : String × String) (now : ℚ) (srcId : Nat)
    (m : ServerMessage) (s : LiveState) (bytes : List Nat) (k : Nat)
    (haud : m.audioData = some bytes) (hctx : s.outputAudioContextRef = some k)
    (hne : bytes.isEmpty = false) (heven : bytes.length % 2 = 0)
    (hint : m.interrupted = false) :
    (handleMessage cap now srcId m s).audioSources =
      s.audioSources ++
        [⟨srcId, max s.nextStartTime now, ((bytes.length / 2 : Nat) : ℚ) / 24000⟩] ∧
    (handleMessage cap now srcId m s).nextStartTime =
      max s.nextStartTime now + ((bytes.length / 2 : Nat) : ℚ) / 24000 ∧
    (handleMessage cap now srcId m s).outputAudioContextRef = some k := by
  unfold handleMessage
  rw [applyTranscripts_eq cap m s]
  rw [audioPhase_enqueue now srcId m _ bytes k haud (by simpa using hctx) hne heven hint]
  simp [hctx]

/-- C3: for every session state, `stopConversation` is idempotent —
calling it twice yields the very state one call yields — the terminal
state is fully torn down (session closed, capture stopped, nodes and
contexts released, scheduled output cleared, cursor zero, inactive, not
connecting), and each held resource is appended to its release log
exactly once by the first call, the idempotence equation showing the
second call performs no release. -/
theorem c3_stopIdempotent (s : LiveState) :
    stopConversation (stopConversation s) = stopConversation s ∧
    (stopConversation s).sessionRef = none ∧
    (stopConversation s).streamRef = none ∧
    (stopConversation s).scriptProcessorRef = none ∧
    (stopConversation s).mediaStreamSourceRef = none ∧
    (stopConversation s).inputAudioContextRef = none ∧
    (stopConversation s).outputAudioContextRef = none ∧
    (stopConversation s).audioSources = [] ∧
    (stopConversation s).nextStartTime = 0 ∧
    (stopConversation s).isActive = false ∧
    (stopConversation s).isConnecting = false ∧
    (stopConversation s).closedSessions = s.closedSessions ++ s.sessionRef.toList ∧
    (stopConversation s).stoppedStreams = s.stoppedStreams ++ s.streamRef.toList ∧
    (stopConversation s).stoppedSources = s.stoppedSources ++ s.audioSources.map Chunk.id := by
  have h := stopConversation_eq s
  refine ⟨?_, ?_⟩
  · rw [stopConversation_eq (stopConversation s), h]
    simp
  · rw [h]
    simp

/-- C2: while the session is active and uninterrupted, every
audio-bearing fragment is scheduled to start no earlier than the
current playback time and no earlier than the end of the previously
scheduled chunk; the scheduling invariant (chunks pairwise sequential,
cursor at or past the last end) is preserved, so any sequence of
enqueued chunks — in particular three — plays strictly sequentially
with no overlap. -/
theorem c2_playbackStrictlySequential
    (s : LiveState) (cap : String × String) (now : ℚ) (srcId k : Nat)
    (m : ServerMessage) (bytes : List Nat)
    (hinv : SchedInv s) (hctx : s.outputAudioContextRef = some k)
    (haud : m.audioData = some bytes) (hne : bytes.isEmpty = false)
    (heven : bytes.length % 2 = 0) (hint : m.interrupted = false) :
    (handleMessage cap now srcId m s).audioSources =
      s.audioSources ++
        [⟨srcId, max s.nextStartTime now, ((bytes.length / 2 : Nat) : ℚ) / 24000⟩] ∧
    now ≤ max s.nextStartTime now ∧
    (∀ p ∈ s.audioSources.getLast?, p.start + p.duration ≤ max s.nextStartTime now) ∧
    SchedInv (handleMessage cap now srcId m s) := by
  obtain ⟨hsrc, hnst, -⟩ :=
    handleMessage_enqueue cap now srcId m s bytes k haud hctx hne heven hint
  refine ⟨hsrc, le_max_right _ _, ?_, ?_, ?_⟩
  · intro p hp
    exact le_trans (hinv.2 p hp) (le_max_left _ _)
  · rw [hsrc, List.chain'_append]
    refine ⟨hinv.1, List.chain'_singleton _, ?_⟩
    intro x hx y hy
    simp only [List.head?_cons, Option.mem_def, Option.some.injEq] at hy
    subst hy
    exact le_trans (hinv.2 x hx) (le_max_left _ _)
  · intro c hc
    rw [hsrc, List.getLast?_concat] at hc
    simp only [Option.mem_def, Option.some.injEq] at hc
    subst hc
    rw [hnst]

/-- The byte payload used in concrete scheduling witnesses: two 16-bit
zero samples. -/
def c2Bytes : List Nat := [0, 0, 0, 0]

/-- A state with one chunk already scheduled and the cursor at its
end. -/
def c2State : LiveState :=
  { activeState with audioSources := [⟨50, 0, 1⟩], nextStartTime := 1 }

/-- An audio-only fragment carrying `c2Bytes`. -/
def c2Msg : ServerMessage :=
  { outputTranscriptionText := none
    inputTranscriptionText := none
    turnComplete := false
    audioData := some c2Bytes
    interrupted := false }

/-- Witness for `c2_playbackStrictlySequential` at a concrete state with
one pending chunk and a later current time. -/
theorem c2_witness :
    SchedInv c2State ∧
    ((handleMessage ("", "") 2 51 c2Msg c2State).audioSources =
        c2State.audioSources ++
          [⟨51, max c2State.nextStartTime 2, ((c2Bytes.length / 2 : Nat) : ℚ) / 24000⟩] ∧
      (2 : ℚ) ≤ max c2State.nextStartTime 2 ∧
      (∀ p ∈ c2State.audioSources.getLast?,
          p.start + p.duration ≤ max c2State.nextStartTime 2) ∧
      SchedInv (handleMessage ("", "") 2 51 c2Msg c2State)) :=
  ⟨by
      constructor
      · simp [c2State, activeState, startConversationSuccess, onOpenHandler, initialLiveState]
      · intro c hc
        simp [c2State, activeState, startConversationSuccess, onOpenHandler,
          initialLiveState] at hc
        subst hc
        norm_num [c2State, activeState, startConversationSuccess, onOpenHandler,
          initialLiveState],
    c2_playbackStrictlySequential c2State ("", "") 2 51 3 c2Msg c2Bytes
      (by
        constructor
        · simp [c2State, activeState, startConversationSuccess, onOpenHandler, initialLiveState]
        · intro c hc
          simp [c2State, activeState, startConversationSuccess, onOpenHandler,
            initialLiveState] at hc
          subst hc
          norm_num [c2State, activeState, startConversationSuccess, onOpenHandler,
            initialLiveState])
      (by decide) (by decide) (by decide) (by decide) (by decide)⟩

/-- The `interrupted` path through the audio phase: whatever else the
fragment carried (including a well-formed audio payload), the active set
ends empty, the cursor ends at zero, and every previously active chunk
was stopped. -/
theorem audioPhase_interrupted (now : ℚ) (srcId : Nat) (m : ServerMessage) (s : LiveState)
    (hint : m.interrupted = true)
    (hwf : ∀ bytes, m.audioData = some bytes → bytes.length % 2 = 0) :
    (audioPhase now srcId m s).audioSources = [] ∧
    (audioPhase now srcId m s).nextStartTime = 0 ∧
    ∀ c ∈ s.audioSources, c.id ∈ (audioPhase now srcId m s).stoppedSources := by
  unfold audioPhase
  cases haud : m.audioData with
  | none =>
      cases s.outputAudioContextRef <;> simp [applyInterrupted, hint] <;>
        · intro c hc
          exact Or.inr ⟨c, hc, rfl⟩
  | some bytes =>
      cases s.outputAudioContextRef with
      | none =>
          simp [applyInterrupted, hint]
          intro c hc
          exact Or.inr ⟨c, hc, rfl⟩
      | some k =>
          by_cases hne : bytes.isEmpty
          · simp [hne, applyInterrupted, hint]
            intro c hc
            exact Or.inr ⟨c, hc, rfl⟩
          · have heven := hwf bytes haud
            simp [hne, decodeAudioData, heven, applyInterrupted, hint]
            intro c hc
            exact Or.inr (Or.inl ⟨c, hc, rfl⟩)

/-- C4: processing a fragment carrying the interruption flag (with any
well-formed audio payload) stops every currently scheduled or playing
chunk, empties the active playback set, resets the next-start-time
cursor to zero, and a subsequent well-formed enqueue at a non-negative
current time starts immediately at that time. -/
theorem c4_interruptFlush
    (s : LiveState) (cap : String × String) (now : ℚ) (srcId : Nat) (m : ServerMessage)
    (hint : m.interrupted = true)
    (hwf : ∀ bytes, m.audioData = some bytes → bytes.length % 2 = 0) :
    (handleMessage cap now srcId m s).audioSources = [] ∧
    (handleMessage cap now srcId m s).nextStartTime = 0 ∧
    (∀ c ∈ s.audioSources, c.id ∈ (handleMessage cap now srcId m s).stoppedSources) ∧
    (∀ (cap₂ : String × String) (now₂ : ℚ) (srcId₂ k : Nat) (m₂ : ServerMessage)
        (bytes₂ : List Nat),
        0 ≤ now₂ →
        (handleMessage cap now srcId m s).outputAudioContextRef = some k →
        m₂.audioData = some bytes₂ → bytes₂.isEmpty = false →
        bytes₂.length % 2 = 0 → m₂.interrupted = false →
        (handleMessage cap₂ now₂ srcId₂ m₂ (handleMessage cap now srcId m s)).audioSources =
          [⟨srcId₂, now₂, ((bytes₂.length / 2 : Nat) : ℚ) / 24000⟩]) := by
  have hsrcs : (applyTranscripts cap m s).audioSources = s.audioSources := by
    rw [applyTranscripts_eq]
  obtain ⟨h1, h2, h3⟩ :=
    audioPhase_interrupted now srcId m (applyTranscripts cap m s) hint hwf
  have hr : handleMessage cap now srcId m s = audioPhase now srcId m (applyTranscripts cap m s) :=
    rfl
  refine ⟨by rw [hr]; exact h1, by rw [hr]; exact h2, ?_, ?_⟩
  · intro c hc
    rw [hr]
    exact h3 c (by rw [hsrcs]; exact hc)
  · intro cap₂ now₂ srcId₂ k m₂ bytes₂ h0 hctx₂ haud₂ hne₂ heven₂ hint₂
    obtain ⟨hsrc₂, -, -⟩ :=
      handleMessage_enqueue cap₂ now₂ srcId₂ m₂ (handleMessage cap now srcId m s) bytes₂ k
        haud₂ hctx₂ hne₂ heven₂ hint₂
    rw [hsrc₂, hr, h1, h2]
    simp [max_eq_right h0]

/-- An interruption-only fragment. -/
def c4Msg : ServerMessage :=
  { outputTranscriptionText := none
    inputTranscriptionText := none
    turnComplete := false
    audioData := none
    interrupted := true }

/-- Witness for `c4_interruptFlush`: flushing a state with one pending
chunk, then enqueueing again at time 1. -/
theorem c4_witness :
    (handleMessage ("", "") 0 60 c4Msg c2State).audioSources = [] ∧
    (handleMessage ("", "") 0 60 c4Msg c2State).nextStartTime = 0 ∧
    (⟨50, 0, 1⟩ : Chunk).id ∈ (handleMessage ("", "") 0 60 c4Msg c2State).stoppedSources ∧
    (handleMessage ("", "") 1 61 c2Msg (handleMessage ("", "") 0 60 c4Msg c2State)).audioSources =
      [⟨61, 1, ((c2Bytes.length / 2 : Nat) : ℚ) / 24000⟩] := by
  have h := c4_interruptFlush c2State ("", "") 0 60 c4Msg (by decide)
    (by intro bytes hb; simp [c4Msg] at hb)
  exact ⟨h.1, h.2.1,
    h.2.2.1 ⟨50, 0, 1⟩ (by decide),
    h.2.2.2 ("", "") 1 61 3 c2Msg c2Bytes (by norm_num) (by decide) (by decide) (by decide)
      (by decide) (by decide)⟩

/-- Normal form of the audio phase when the payload length is odd: the
cursor bump has already happened, the awaited decode rejects, and the
rest of the handler is skipped, leaving everything else unchanged. -/
theorem audioPhase_decodeError (now : ℚ) (srcId : Nat) (m : ServerMessage) (s : LiveState)
    (bytes : List Nat) (k : Nat)
    (haud : m.audioData = some bytes) (hctx : s.outputAudioContextRef = some k)
    (hodd : bytes.length % 2 = 1) :
    audioPhase now srcId m s = { s with nextStartTime := max s.nextStartTime now } := by
  unfold audioPhase
  rw [haud, hctx]
  have hne : bytes.isEmpty = false := by
    cases bytes with
    | nil => simp at hodd
    | cons a l => rfl
  simp [hne, decodeAudioData, hodd]

/-- C7: a fragment whose audio payload has a byte length that is not a
whole multiple of the 16-bit sample width makes `decodeAudioData` fail
with a `DecodeError`; the fragment is dropped (no chunk is scheduled
and nothing is stopped), no teardown happens (session, stream, activity
and release logs are untouched, the output context stays live), and a
later well-formed audio fragment is still scheduled normally. -/
theorem c7_decodeErrorDropsFragment
    (s : LiveState) (cap : String × String) (now : ℚ) (srcId : Nat)
    (m : ServerMessage) (bytes : List Nat) (k : Nat)
    (haud : m.audioData = some bytes) (hodd : bytes.length % 2 = 1)
    (hctx : s.outputAudioContextRef = some k) :
    decodeAudioData bytes 24000 1 = Except.error "DecodeError" ∧
    (handleMessage cap now srcId m s).audioSources = s.audioSources ∧
    (handleMessage cap now srcId m s).sessionRef = s.sessionRef ∧
    (handleMessage cap now srcId m s).streamRef = s.streamRef ∧
    (handleMessage cap now srcId m s).isActive = s.isActive ∧
    (handleMessage cap now srcId m s).outputAudioContextRef = some k ∧
    (handleMessage cap now srcId m s).closedSessions = s.closedSessions ∧
    (handleMessage cap now srcId m s).stoppedStreams = s.stoppedStreams ∧
    (handleMessage cap now srcId m s).stoppedSources = s.stoppedSources ∧
    (∀ (cap₂ : String × String) (now₂ : ℚ) (srcId₂ : Nat) (m₂ : ServerMessage)
        (bytes₂ : List Nat),
        m₂.audioData = some bytes₂ → bytes₂.isEmpty = false →
        bytes₂.length % 2 = 0 → m₂.interrupted = false →
        (handleMessage cap₂ now₂ srcId₂ m₂ (handleMessage cap now srcId m s)).audioSources =
          (handleMessage cap now srcId m s).audioSources ++
            [⟨srcId₂, max (handleMessage cap now srcId m s).nextStartTime now₂,
              ((bytes₂.length / 2 : Nat) : ℚ) / 24000⟩]) := by
  have hctx3 : (applyTranscripts cap m s).outputAudioContextRef = some k := by
    rw [applyTranscripts_eq]; exact hctx
  have hr : handleMessage cap now srcId m s =
      { applyTranscripts cap m s with
          nextStartTime := max (applyTranscripts cap m s).nextStartTime now } := by
    unfold handleMessage
    exact audioPhase_decodeError now srcId m _ bytes k haud hctx3 hodd
  refine ⟨by simp [decodeAudioData, hodd], ?_, ?_, ?_, ?_, ?_, ?_, ?_, ?_, ?_⟩
  · rw [hr, applyTranscripts_eq]
  · rw [hr, applyTranscripts_eq]
  · rw [hr, applyTranscripts_eq]
  · rw [hr, applyTranscripts_eq]
  · rw [hr, applyTranscripts_eq]; exact hctx
  · rw [hr, applyTranscripts_eq]
  · rw [hr, applyTranscripts_eq]
  · rw [hr, applyTranscripts_eq]
  · intro cap₂ now₂ srcId₂ m₂ bytes₂ haud₂ hne₂ heven₂ hint₂
    have hctxr : (handleMessage cap now srcId m s).outputAudioContextRef = some k := by
      rw [hr, applyTranscripts_eq]; exact hctx
    exact (handleMessage_enqueue cap₂ now₂ srcId₂ m₂ _ bytes₂ k haud₂ hctxr hne₂ heven₂
      hint₂).1

/-- A fragment carrying a malformed (odd-length) audio payload. -/
def c7Msg : ServerMessage :=
  { outputTranscriptionText := none
    inputTranscriptionText := none
    turnComplete := false
    audioData := some [7]
    interrupted := false }

/-- Witness for `c7_decodeErrorDropsFragment`: a one-byte payload in the
active state, followed by a well-formed fragment. -/
theorem c7_witness :
    decodeAudioData [7] 24000 1 = Except.error "DecodeError" ∧
    (handleMessage ("", "") 0 70 c7Msg c2State).audioSources = c2State.audioSources ∧
    (handleMessage ("", "") 0 70 c7Msg c2State).sessionRef = c2State.sessionRef ∧
    (handleMessage ("", "") 0 70 c7Msg c2State).isActive = c2State.isActive ∧
    (handleMessage ("", "") 1 71 c2Msg (handleMessage ("", "") 0 70 c7Msg c2State)).audioSources =
      (handleMessage ("", "") 0 70 c7Msg c2State).audioSources ++
        [⟨71, max (handleMessage ("", "") 0 70 c7Msg c2State).nextStartTime 1,
          ((c2Bytes.length / 2 : Nat) : ℚ) / 24000⟩] := by
  have h := c7_decodeErrorDropsFragment c2State ("", "") 0 70 c7Msg [7] 3
    (by decide) (by decide) (by decide)
  exact ⟨h.1, h.2.1, h.2.2.1, h.2.2.2.2.1,
    h.2.2.2.2.2.2.2.2.2 ("", "") 1 71 c2Msg c2Bytes (by decide) (by decide) (by decide)
      (by decide)⟩

/-- When the output audio context ref is cleared, the audio block of
`handleMessage` is skipped entirely and only the `interrupted` block can
run. -/
theorem audioPhase_noCtx (now : ℚ) (srcId : Nat) (m : ServerMessage) (s : LiveState)
    (hctx : s.outputAudioContextRef = none) :
    audioPhase now srcId m s = applyInterrupted m s := by
  unfold audioPhase
  cases haud : m.audioData <;> rw [hctx]

/-- A fragment carrying only an ai transcript delta "hello". -/
def c1DeltaMsg : ServerMessage :=
  { outputTranscriptionText := some "hello"
    inputTranscriptionText := none
    turnComplete := false
    audioData := none
    interrupted := false }

/-- A fragment carrying only the turn-complete flag. -/
def c1TurnMsg : ServerMessage :=
  { outputTranscriptionText := none
    inputTranscriptionText := none
    turnComplete := true
    audioData := none
    interrupted := false }

/-- C1 evaluated at the failing input: in a freshly started session
(whose `onMessage` closure captured the empty transcripts of the
starting render), an ai delta "hello" accumulates in the live
`aiTranscript`, yet the subsequent turn-complete commits the *captured*
pair `("", "")` to the history — not the accumulated `("", "hello")`
the claim requires — and then resets both accumulators. -/
theorem c1_staleClosureCommit :
    (handleMessage ("", "") 0 80 c1DeltaMsg activeState).aiTranscript = "hello" ∧
    (handleMessage ("", "") 0 81 c1TurnMsg
        (handleMessage ("", "") 0 80 c1DeltaMsg activeState)).transcriptHistory =
      [("", "")] ∧
    [(("" : String), ("" : String))] ≠ [(("" : String), ("hello" : String))] ∧
    (handleMessage ("", "") 0 81 c1TurnMsg
        (handleMessage ("", "") 0 80 c1DeltaMsg activeState)).userTranscript = "" ∧
    (handleMessage ("", "") 0 81 c1TurnMsg
        (handleMessage ("", "") 0 80 c1DeltaMsg activeState)).aiTranscript = "" := by
  decide

/-- A fragment carrying only an ai transcript delta "x". -/
def c5DeltaMsg : ServerMessage :=
  { outputTranscriptionText := some "x"
    inputTranscriptionText := none
    turnComplete := false
    audioData := none
    interrupted := false }

/-- A fragment carrying only the turn-complete flag (for the post-stop
scenario). -/
def c5TurnMsg : ServerMessage :=
  { outputTranscriptionText := none
    inputTranscriptionText := none
    turnComplete := true
    audioData := none
    interrupted := false }

/-- C5 counterexample: a transcript-delta fragment delivered after
`stopConversation` still changes the transcript accumulator, and a
turn-complete fragment delivered after `stopConversation` still commits
a turn to the transcript history — they are not ignored as the claim
states. -/
theorem c5_counterexample :
    (handleMessage ("", "") 0 90 c5DeltaMsg (stopConversation activeState)).aiTranscript ≠
      (stopConversation activeState).aiTranscript ∧
    (handleMessage ("", "") 0 91 c5TurnMsg
        (stopConversation activeState)).transcriptHistory ≠
      (stopConversation activeState).transcriptHistory := by
  decide

/-- C5 (amended): any fragment delivered after `stopConversation` is
processed faultlessly and cannot touch playback or trigger any further
release: the active set stays empty, the cursor stays zero, the session
and stream stay torn down, the output context stays closed (so audio
payloads are skipped), and the release logs do not grow.  (Transcript
deltas and turn-complete signals, however, still mutate the transcript
accumulators and history, as the counterexample shows.) -/
theorem c5_amended (s : LiveState) (cap : String × String) (now : ℚ) (srcId : Nat)
    (m : ServerMessage) :
    (handleMessage cap now srcId m (stopConversation s)).audioSources = [] ∧
    (handleMessage cap now srcId m (stopConversation s)).nextStartTime = 0 ∧
    (handleMessage cap now srcId m (stopConversation s)).sessionRef = none ∧
    (handleMessage cap now srcId m (stopConversation s)).streamRef = none ∧
    (handleMessage cap now srcId m (stopConversation s)).outputAudioContextRef = none ∧
    (handleMessage cap now srcId m (stopConversation s)).closedSessions =
      (stopConversation s).closedSessions ∧
    (handleMessage cap now srcId m (stopConversation s)).stoppedStreams =
      (stopConversation s).stoppedStreams := by
  have hctxT : (applyTranscripts cap m (stopConversation s)).outputAudioContextRef = none := by
    rw [applyTranscripts_eq, stopConversation_eq]
  have hr : handleMessage cap now srcId m (stopConversation s) =
      applyInterrupted m (applyTranscripts cap m (stopConversation s)) :=
    audioPhase_noCtx now srcId m _ hctxT
  rw [hr]
  unfold applyInterrupted
  split <;> simp [applyTranscripts_eq, stopConversation_eq]

/-- C6 counterexample: a remote close while the session is active runs
the teardown but surfaces no user-facing status text — `errorMsg`
remains `none` — so not every failure is converted to status text as
the claim states. -/
theorem c6_counterexample :
    activeState.isActive = true ∧
    (onCloseHandler activeState).errorMsg = none := by
  decide

/-- C6 (amended): a transport error while active surfaces "A connection
error occurred." and runs the full teardown; a remote close runs the
full teardown but surfaces no message (the error text is left
unchanged); a `start()` failure (microphone denied) surfaces its own
message and clears the connecting flag but does *not* run the
teardown/release sequence — refs, playback state and release logs are
untouched. -/
theorem c6_amended (s : LiveState) :
    (onErrorHandler s).errorMsg = some "A connection error occurred." ∧
    (onErrorHandler s).sessionRef = none ∧
    (onErrorHandler s).streamRef = none ∧
    (onErrorHandler s).scriptProcessorRef = none ∧
    (onErrorHandler s).mediaStreamSourceRef = none ∧
    (onErrorHandler s).inputAudioContextRef = none ∧
    (onErrorHandler s).outputAudioContextRef = none ∧
    (onErrorHandler s).audioSources = [] ∧
    (onErrorHandler s).nextStartTime = 0 ∧
    (onErrorHandler s).isActive = false ∧
    (onErrorHandler s).isConnecting = false ∧
    (onCloseHandler s).errorMsg = s.errorMsg ∧
    onCloseHandler s = stopConversation s ∧
    (startConversationMicDenied s).errorMsg =
      some "Could not access microphone. Please grant permission and try again." ∧
    (startConversationMicDenied s).isConnecting = false ∧
    (startConversationMicDenied s).sessionRef = s.sessionRef ∧
    (startConversationMicDenied s).streamRef = s.streamRef ∧
    (startConversationMicDenied s).inputAudioContextRef = s.inputAudioContextRef ∧
    (startConversationMicDenied s).outputAudioContextRef = s.outputAudioContextRef ∧
    (startConversationMicDenied s).audioSources = s.audioSources ∧
    (startConversationMicDenied s).nextStartTime = s.nextStartTime ∧
    (startConversationMicDenied s).closedSessions = s.closedSessions ∧
    (startConversationMicDenied s).stoppedStreams = s.stoppedStreams ∧
    (startConversationMicDenied s).stoppedSources = s.stoppedSources := by
  unfold onErrorHandler onCloseHandler startConversationMicDenied
  simp [stopConversation_eq]

/-- C9 counterexample: with session 4 active (stream 1 captured),
invoking the `startConversation` body again is neither rejected nor
preceded by a teardown — it establishes session 14 while session 4 is
never closed and stream 1 is never stopped. -/
theorem c9_counterexample :
    activeState.isActive = true ∧
    activeState.sessionRef = some 4 ∧
    activeState.streamRef = some 1 ∧
    (startConversationSuccess 11 12 13 14 activeState).sessionRef = some 14 ∧
    (startConversationSuccess 11 12 13 14 activeState).closedSessions = [] ∧
    (startConversationSuccess 11 12 13 14 activeState).stoppedStreams = [] := by
  decide

/-- C9 (amended): the component is deterministic only through its UI
entry point: `toggleConversation` maps a second tap while active or
connecting to `stopConversation` (tearing the session down and starting
nothing), and only starts from the idle state; the `startConversation`
body itself performs no guard — run while a session is live it
overwrites the session and capture refs without closing or stopping the
old ones. -/
theorem c9_amended (s : LiveState) (a b c d : Nat) :
    ((s.isActive || s.isConnecting) = true →
        toggleConversation a b c d s = stopConversation s) ∧
    ((s.isActive || s.isConnecting) = false →
        toggleConversation a b c d s = startConversationSuccess a b c d s) ∧
    (startConversationSuccess a b c d s).sessionRef = some d ∧
    (startConversationSuccess a b c d s).streamRef = some a ∧
    (startConversationSuccess a b c d s).closedSessions = s.closedSessions ∧
    (startConversationSuccess a b c d s).stoppedStreams = s.stoppedStreams ∧
    (startConversationSuccess a b c d s).stoppedSources = s.stoppedSources := by
  refine ⟨?_, ?_, rfl, rfl, rfl, rfl, rfl⟩
  · intro h
    simp [toggleConversation, h]
  · intro h
    simp [toggleConversation, h]

/-- Witness for `c9_amended`: from the concrete active state, a second
toggle is exactly `stopConversation`. -/
theorem c9_witness :
    toggleConversation 11 12 13 14 activeState = stopConversation activeState :=
  (c9_amended activeState 11 12 13 14).1 (by decide)

section Codec

/-- `toInt16` is the identity on the signed 16-bit range. -/
theorem toInt16_id (v : Int) (h1 : -32768 ≤ v) (h2 : v ≤ 32767) : toInt16 v = v := by
  unfold toInt16
  split <;> omega

/-- Reading back the two little-endian bytes of an in-range 16-bit
value recovers the value. -/
theorem int16OfBytes_toBytesLE (v : Int) (h1 : -32768 ≤ v) (h2 : v ≤ 32767) :
    int16OfBytes ((v % 65536).toNat % 256) ((v % 65536).toNat / 256) = v := by
  unfold int16OfBytes
  split <;> omega

/-- Truncation toward zero moves a value by less than one. -/
theorem truncQ_dist (y : ℚ) : |((truncQ y : Int) : ℚ) - y| ≤ 1 := by
  unfold truncQ
  split
  · rw [abs_le]
    constructor <;> linarith [Int.floor_le y, Int.lt_floor_add_one y]
  · rw [abs_le]
    constructor <;> linarith [Int.le_ceil y, Int.ceil_lt_add_one y]

/-- On `[-1, 1)` the `Int16Array` store does not wrap: the stored value
is the plain truncation, and it lies in the signed 16-bit range. -/
theorem quantizeSample_bounds (x : ℚ) (h1 : -1 ≤ x) (h2 : x < 1) :
    quantizeSample x = truncQ (x * 32768) ∧
    -32768 ≤ truncQ (x * 32768) ∧ truncQ (x * 32768) ≤ 32767 := by
  have hy1 : (-32768 : ℚ) ≤ x * 32768 := by linarith
  have hy2 : x * 32768 < 32768 := by linarith
  have hb : -32768 ≤ truncQ (x * 32768) ∧ truncQ (x * 32768) ≤ 32767 := by
    unfold truncQ
    split
    · have hfl : ⌊x * 32768⌋ < 32768 := by
        rw [Int.floor_lt]
        exact_mod_cast hy2
      have hfn : (0 : ℤ) ≤ ⌊x * 32768⌋ := Int.floor_nonneg.mpr (by assumption)
      omega
    · have hcu : ⌈x * 32768⌉ ≤ 0 := by
        rw [Int.ceil_le]
        push_cast
        linarith [not_le.mp (by assumption)]
      have hcl : (-32768 : ℤ) ≤ ⌈x * 32768⌉ := by
        have h := Int.le_ceil (x * 32768)
        have : (-32768 : ℚ) ≤ (⌈x * 32768⌉ : ℚ) := le_trans hy1 h
        exact_mod_cast this
      omega
  refine ⟨?_, hb⟩
  unfold quantizeSample
  exact toInt16_id _ hb.1 hb.2

/-- The per-sample round trip: quantize to 16 bits, scale back. -/
def rtSample (x : ℚ) : ℚ := ((quantizeSample x : Int) : ℚ) / 32768

/-- On `[-1, 1)` the round trip is within one quantization step. -/
theorem rtSample_close (x : ℚ) (h1 : -1 ≤ x) (h2 : x < 1) :
    |rtSample x - x| ≤ 1 / 32768 := by
  obtain ⟨hq, -, -⟩ := quantizeSample_bounds x h1 h2
  have hd := truncQ_dist (x * 32768)
  unfold rtSample
  rw [hq]
  have heq : ((truncQ (x * 32768) : Int) : ℚ) / 32768 - x =
      (((truncQ (x * 32768) : Int) : ℚ) - x * 32768) / 32768 := by ring
  rw [heq, abs_div]
  rw [show |(32768 : ℚ)| = 32768 from by norm_num]
  gcongr

/-- An encoded frame occupies two bytes per sample. -/
theorem encodeFrame_length (l : List ℚ) : (encodeFrame l).length = 2 * l.length := by
  induction l with
  | nil => rfl
  | cons x xs ih =>
      simp [encodeFrame, toBytesLE, ih]
      omega

/-- Decoding an encoded frame of in-range samples yields exactly the
per-sample round trips. -/
theorem samplesOfBytes_encodeFrame (l : List ℚ) (h : ∀ x ∈ l, -1 ≤ x ∧ x < 1) :
    samplesOfBytes (encodeFrame l) = l.map rtSample := by
  induction l with
  | nil => rfl
  | cons x xs ih =>
      have hx := h x (List.mem_cons_self x xs)
      obtain ⟨hq, hlo, hhi⟩ := quantizeSample_bounds x hx.1 hx.2
      have hib := int16OfBytes_toBytesLE (quantizeSample x)
        (by rw [hq]; exact hlo) (by rw [hq]; exact hhi)
      simp only [encodeFrame, toBytesLE, List.cons_append, List.nil_append]
      rw [samplesOfBytes, List.map_cons]
      rw [hib]
      exact congrArg _ (ih (fun y hy => h y (List.mem_cons_of_mem x hy)))

end Codec

/-- C8 counterexample: at the full-scale sample `1`, the store
`1 * 32768 = 32768` wraps to `-32768` in the `Int16Array`, so the frame
`[1]` decodes to `[-1]`: the round-trip error is `2`, far beyond one
16-bit quantization step. -/
theorem c8_counterexample :
    decodeAudioData (encodeFrame [(1 : ℚ)]) 16000 1 =
      Except.ok ⟨[(-1 : ℚ)], 1 / 16000⟩ ∧
    ¬ (|(-1 : ℚ) - 1| ≤ 1 / 32768) := by
  constructor
  · have he : encodeFrame [(1 : ℚ)] = [0, 128] := by
      norm_num [encodeFrame, toBytesLE, quantizeSample, truncQ, toInt16]
      decide
    rw [he]
    norm_num [decodeAudioData, samplesOfBytes, int16OfBytes]
  · norm_num

/-- C8 (amended): for every buffer of samples each in `[-1, 1)` —
strictly below full scale, where the `Int16Array` store wraps —
encoding the frame to 16-bit little-endian wire bytes and decoding it
back succeeds and recovers every sample within one 16-bit quantization
step (`1/32768`) of the original. -/
theorem c8_roundTripWithinOneStep (samples : List ℚ)
    (h : ∀ x ∈ samples, -1 ≤ x ∧ x < 1) :
    decodeAudioData (encodeFrame samples) 16000 1 =
      Except.ok ⟨samples.map rtSample, (samples.length : ℚ) / 16000⟩ ∧
    List.Forall₂ (fun d x => |d - x| ≤ 1 / 32768) (samples.map rtSample) samples := by
  constructor
  · unfold decodeAudioData
    rw [encodeFrame_length]
    rw [if_neg (by omega)]
    have hlen : 2 * samples.length / 2 / 1 = samples.length := by omega
    rw [samplesOfBytes_encodeFrame samples h, hlen]
  · rw [List.forall₂_map_left_iff]
    rw [List.forall₂_same]
    intro x hx
    exact rtSample_close x (h x hx).1 (h x hx).2

/-- Witness for `c8_roundTripWithinOneStep` on the one-sample frame
`[1/2]`. -/
theorem c8_witness :
    (∀ x ∈ [(1 : ℚ)/2], -1 ≤ x ∧ x < 1) ∧
    (decodeAudioData (encodeFrame [(1 : ℚ)/2]) 16000 1 =
        Except.ok ⟨[(1 : ℚ)/2].map rtSample, (([(1 : ℚ)/2].length : ℚ)) / 16000⟩ ∧
      List.Forall₂ (fun d x => |d - x| ≤ 1 / 32768) ([(1 : ℚ)/2].map rtSample)
        [(1 : ℚ)/2]) := by
  have hin : ∀ x ∈ [(1 : ℚ)/2], -1 ≤ x ∧ x < 1 := by
    intro x hx
    simp at hx
    subst hx
    norm_num
  exact ⟨hin, c8_roundTripWithinOneStep [(1 : ℚ)/2] hin⟩

/-- C10: when the client is initialized and the underlying model
request fails, `getChatResponse` does not propagate the failure: it
resolves with the fixed apology text and an empty sources list, so
`handleSendMessage` takes its success branch and the Chat panel catch
text is never produced by a model-request failure. -/
theorem c10_chatErrorContainment (e : String) (msgs : List ChatMsg) :
    getChatResponse true (Except.error e) = Except.ok (chatApologyText, []) ∧
    handleChatOutcome (getChatResponse true (Except.error e)) msgs =
      msgs.dropLast ++ [⟨"ai", chatApologyText, []⟩] ∧
    chatApologyText ≠ chatPanelErrorText := by
  refine ⟨rfl, rfl, by decide⟩
